import Mathlib

/-
Verification of the ZEON-Refiller control plane against its specification.

The definitions below are shallow embeddings of the Python source:

  - PendingOp / pending_apply      : src/refiller/shared/pending_counter.py
  - tick_need / tick_enqueue_count
    / enqueue_loop / tick_events   : app/replenisher.py, Replenisher.run
  - list_init_vms                  : app/vsphere_pool_manager.py
  - parse_arp_table                : source/core/VMware/NSXManager.py
  - power_on_vm / power_off_vm
    / suspend_vm / clone_vm        : source/core/VMware/VSphereManager.py
  - retry_sync / bliss_init
    / prepare_vm / clone_worker_run: src/refiller/domain/builder.py

Machine integers are modelled as Int (Python integers are unbounded);
naive-UTC datetimes are modelled as Int minutes; fallible calls return
a Bool success flag or an Except value; side effects relevant to the
claims (vSphere calls, queue posts) are recorded as event traces.
-/

/- ===================== PendingCounter (pending_counter.py) ============== -/

/-- One operation on the PendingCounter. The value operation reads the
count without changing it; reset_to stores the clamped argument. -/
inductive PendingOp where
  | inc
  | dec
  | value
  | reset_to (v : ℤ)
deriving DecidableEq

/-- Effect of one PendingCounter operation on the stored count, translated
from pending_counter.py lines 10-25: inc adds 1, dec stores
max(0, count - 1), value leaves the count unchanged, reset_to stores
max(0, v). -/
def pending_apply (c : ℤ) : PendingOp → ℤ
  | PendingOp.inc => c + 1
  | PendingOp.dec => max 0 (c - 1)
  | PendingOp.value => c
  | PendingOp.reset_to v => max 0 v

/-- The count after running a sequence of operations from the initial
count 0 set in the constructor. -/
def pending_run (ops : List PendingOp) : ℤ :=
  ops.foldl pending_apply 0

/- ===================== Replenisher tick (replenisher.py) ================ -/

/-- The need computed by Replenisher.run line 50:
need = min(self.batch_size, self.max_ready_vm - total). -/
def tick_need (batch max_ready total : ℤ) : ℤ :=
  min batch (max_ready - total)

/-- Number of CloneTasks enqueued by one tick (replenisher.py lines 49-59):
when total = ready + pending is below min_ready_vm the loop body runs
range(need) times, i.e. max(0, need) times; otherwise it does not run. -/
def tick_enqueue_count (min_ready max_ready batch ready pend : ℤ) : ℕ :=
  if ready + pend < min_ready then (tick_need batch max_ready (ready + pend)).toNat
  else 0

/-- An observable event of the enqueue loop: a CLONE_QUEUE.put of the i-th
task, or a pending.inc performed for the i-th task. -/
inductive TickEv where
  | put (i : ℕ)
  | inc (i : ℕ)
deriving DecidableEq

/-- The loop "for _ in range(k): await CLONE_QUEUE.put(...); await
pending.inc()" (replenisher.py lines 57-59) as an event trace; i numbers
the iterations already performed. -/
def enqueue_loop : ℕ → ℕ → List TickEv
  | 0, _ => []
  | k + 1, i => TickEv.put i :: TickEv.inc i :: enqueue_loop k (i + 1)

/-- Event trace of one tick's enqueue decision. -/
def tick_events (min_ready max_ready batch ready pend : ℤ) : List TickEv :=
  enqueue_loop (tick_enqueue_count min_ready max_ready batch ready pend) 0

/-- Number of put events in a tick trace. -/
def put_count (evs : List TickEv) : ℕ :=
  evs.countP (fun e => match e with | TickEv.put _ => true | _ => false)

/-- Index of the first occurrence of e, or the length when e is absent. -/
def firstIdx {α : Type} [DecidableEq α] (e : α) : List α → ℕ
  | [] => 0
  | x :: xs => if x = e then 0 else firstIdx e xs + 1

/-- The index carried by a put event. -/
def put_idx_of : TickEv → Option ℕ
  | TickEv.put i => some i
  | _ => none

/-- Formalisation of the claimed ordering "pending.inc() happens before the
corresponding CLONE_QUEUE.put() completes": for every put in the trace, the
matching inc occurs at a strictly earlier position. -/
def inc_before_putB (evs : List TickEv) : Bool :=
  evs.all (fun e =>
    match put_idx_of e with
    | some j => decide (firstIdx (TickEv.inc j) evs < firstIdx (TickEv.put j) evs)
    | none => true)

/- ===================== PoolView (vsphere_pool_manager.py) =============== -/

/-- A VM as seen by list_init_vms: its name, and the two optional
timestamps probed by the source (config.createDate, runtime.bootTime),
modelled as naive-UTC minutes. -/
structure PoolVM where
  name : String
  createDate : Option ℤ
  bootTime : Option ℤ
deriving DecidableEq

/-- Python "getattr(vm.config, 'createDate', None) or getattr(vm.runtime,
'bootTime', None)" (vsphere_pool_manager.py lines 131-134): createDate when
present, else bootTime (datetime objects are truthy). -/
def vm_created (vm : PoolVM) : Option ℤ :=
  match vm.createDate with
  | some t => some t
  | none => vm.bootTime

/-- Python str.startswith, on explicit character lists. -/
def starts_with_chars : List Char → List Char → Bool
  | [], _ => true
  | _ :: _, [] => false
  | p :: ps, c :: cs => (p = c) && starts_with_chars ps cs

/-- vm.name.startswith(marker). -/
def name_starts (s marker : String) : Bool :=
  starts_with_chars marker.toList s.toList

/-- The init-name marker f"[{self._vm_prefix}] VMInit_". -/
def init_name_marker (env : String) : String :=
  "[" ++ env ++ "] VMInit_"

/-- The selection loop of list_init_vms (vsphere_pool_manager.py lines
128-136): keep the names of VMs whose name starts with the init marker and
whose effective creation time is at or before the cutoff; VMs with no
timestamp are skipped. -/
def list_init_vms_loop (marker : String) (cutoff : ℤ) : List PoolVM → List String
  | [] => []
  | vm :: rest =>
    let tail := list_init_vms_loop marker cutoff rest
    if name_starts vm.name marker then
      match vm_created vm with
      | some c => if c ≤ cutoff then vm.name :: tail else tail
      | none => tail
    else tail

/-- The selection predicate applied by the loop. -/
def init_vm_old (marker : String) (cutoff : ℤ) (vm : PoolVM) : Bool :=
  name_starts vm.name marker &&
    (match vm_created vm with
     | some c => decide (c ≤ cutoff)
     | none => false)

/-- VSpherePoolManager.list_init_vms (lines 113-138): with a non-positive
TTL return []; otherwise cutoff = utcnow() - older_than_minutes (here: now
and timestamps in minutes) and the loop above runs over the inventory. -/
def list_init_vms (env : String) (now : ℤ) (vms : List PoolVM)
    (older_than_minutes : ℤ) : List String :=
  if older_than_minutes ≤ 0 then []
  else list_init_vms_loop (init_name_marker env) (now - older_than_minutes) vms

/- ===================== NSX ARP parser (NSXManager.py) =================== -/

/-- Python str.split() whitespace (space, tab, newline, carriage return,
vertical tab, form feed). -/
def py_ws (c : Char) : Bool :=
  (c = ' ') || (c = '\t') || (c = '\n') || (c = '\r') || (c = '\x0b') || (c = '\x0c')

/-- Python str.split() with no argument: split on whitespace runs, dropping
empty fields. Written with one-character lookahead so the recursion is
structural. -/
def split_ws : List Char → List (List Char)
  | [] => []
  | c :: cs =>
    let rest := split_ws cs
    if py_ws c then rest
    else
      match cs with
      | [] => [[c]]
      | d :: _ =>
        if py_ws d then [c] :: rest
        else
          match rest with
          | [] => [[c]]
          | t :: ts => (c :: t) :: ts

/-- line.split() on strings. -/
def py_split (s : String) : List String :=
  (split_ws s.toList).map (fun t => String.mk t)

/-- Consume a leading run of decimal digits; return its length and the
remainder. -/
def digit_run : List Char → ℕ × List Char
  | [] => (0, [])
  | c :: cs =>
    if c.isDigit then
      let (n, r) := digit_run cs
      (n + 1, r)
    else (0, c :: cs)

/-- re.match of the IPv4 pattern of NSXManager.parse_arp_table: a PREFIX of
the field matching digits, dot, digits, dot, digits, dot, digits. -/
def ipv4_match (l : List Char) : Bool :=
  match digit_run l with
  | (0, _) => false
  | (_ + 1, r1) =>
    match r1 with
    | '.' :: r2 =>
      match digit_run r2 with
      | (0, _) => false
      | (_ + 1, r3) =>
        match r3 with
        | '.' :: r4 =>
          match digit_run r4 with
          | (0, _) => false
          | (_ + 1, r5) =>
            match r5 with
            | '.' :: r6 => (digit_run r6).1 != 0
            | _ => false
        | _ => false
    | _ => false

/-- A character of the class [0-9A-Fa-f:]. -/
def hex_or_colon (c : Char) : Bool :=
  c.isDigit || (('a' ≤ c) && (c ≤ 'f')) || (('A' ≤ c) && (c ≤ 'F')) || (c = ':')

/-- re.match of the MAC pattern of NSXManager.parse_arp_table: the first 17
characters of the field all lie in [0-9A-Fa-f:] (a prefix character-class
check, not the canonical colon layout). -/
def mac_class_match (l : List Char) : Bool :=
  ((l.take 17).length == 17) && (l.take 17).all hex_or_colon

/-- A hexadecimal digit. -/
def is_hex_char (c : Char) : Bool :=
  c.isDigit || (('a' ≤ c) && (c ≤ 'f')) || (('A' ≤ c) && (c ≤ 'F'))

/-- The canonical 17-character colon MAC form named by the specification:
six hex pairs joined by colons (hh:hh:hh:hh:hh:hh). -/
def canonical_mac : List Char → Bool
  | [a1, a2, ':', b1, b2, ':', c1, c2, ':', d1, d2, ':', e1, e2, ':', f1, f2] =>
    [a1, a2, b1, b2, c1, c2, d1, d2, e1, e2, f1, f2].all is_hex_char
  | _ => false

/-- mac_candidate.lower(). -/
def lower_str (s : String) : String :=
  String.mk (s.toList.map Char.toLower)

/-- One iteration of parse_arp_table's loop (NSXManager.py lines 86-93):
a line with at least 4 whitespace-separated fields whose second field
prefix-matches the IPv4 pattern and whose third field passes the 17
character class check yields the entry (lowercased mac, ip). -/
def parse_arp_line (line : String) : Option (String × String) :=
  match py_split line with
  | _ :: ip :: mac :: _ :: _ =>
    if ipv4_match ip.toList && mac_class_match mac.toList then
      some (lower_str mac, ip)
    else none
  | _ => none

/-- Python dict assignment arp_map[k] = v: replace the value in place when
the key is present, else append the pair. -/
def dict_insert (m : List (String × String)) (k v : String) :
    List (String × String) :=
  if m.any (fun p => p.1 = k) then
    m.map (fun p => if p.1 = k then (k, v) else p)
  else m ++ [(k, v)]

/-- NSXManager.parse_arp_table over the splitlines of the raw output. -/
def parse_arp_table (lines : List String) : List (String × String) :=
  lines.foldl
    (fun m line =>
      match parse_arp_line line with
      | some kv => dict_insert m kv.1 kv.2
      | none => m)
    []

/-- Python dict lookup arp_map.get(k) (keys are unique, so the first hit is
the value). -/
def dict_get : List (String × String) → String → Option String
  | [], _ => none
  | p :: ps, k => if p.1 = k then some p.2 else dict_get ps k

/-- The value of the LAST entry with key k in an entry list. -/
def last_match : List (String × String) → String → Option String
  | [], _ => none
  | e :: es, k =>
    match last_match es k with
    | some v => some v
    | none => if e.1 = k then some e.2 else none

/- ===================== VSphere power operations ========================= -/

/-- vim power states relevant to the three power operations. -/
inductive VMPower where
  | poweredOn
  | poweredOff
  | suspended
deriving DecidableEq

/-- Outcome of a power operation: the vSphere tasks it started, the power
state it leaves the VM in, and whether it raised. -/
structure PowerOpResult where
  tasks : List String
  state : VMPower
  raised : Bool
deriving DecidableEq

/-- VSphereManager.power_on_vm (lines 250-272): when the VM is already
poweredOn, log and return without starting a task; otherwise start a
PowerOn task which either succeeds or raises VMPowerOnError. The task
outcome is abstracted by task_ok. -/
def power_on_vm (task_ok : Bool) (s : VMPower) : PowerOpResult :=
  if s = VMPower.poweredOn then ⟨[], s, false⟩
  else if task_ok then ⟨["PowerOn"], VMPower.poweredOn, false⟩
  else ⟨["PowerOn"], s, true⟩

/-- VSphereManager.suspend_vm (lines 275-293), same shape with target state
suspended. -/
def suspend_vm (task_ok : Bool) (s : VMPower) : PowerOpResult :=
  if s = VMPower.suspended then ⟨[], s, false⟩
  else if task_ok then ⟨["Suspend"], VMPower.suspended, false⟩
  else ⟨["Suspend"], s, true⟩

/-- VSphereManager.power_off_vm (lines 296-320), same shape with target
state poweredOff. -/
def power_off_vm (task_ok : Bool) (s : VMPower) : PowerOpResult :=
  if s = VMPower.poweredOff then ⟨[], s, false⟩
  else if task_ok then ⟨["PowerOff"], VMPower.poweredOff, false⟩
  else ⟨["PowerOff"], s, true⟩

/- ===================== VSphereManager.clone_vm ========================== -/

/-- A vSphere folder, identified by name. -/
structure VFolder where
  name : String
deriving DecidableEq

/-- A vSphere VM object as clone_vm uses it: name, parent folder, attached
datastores. -/
structure VmObj where
  name : String
  parent : VFolder
  datastores : List String
deriving DecidableEq

/-- The distinct failures clone_vm can raise. -/
inductive CloneErr where
  | sourceNotFound
  | noDatastore
  | folderPathError
  | cloneTaskFailed
  | cloneNotFoundAfter
deriving DecidableEq

/-- The vCenter environment clone_vm queries: VM lookup by name, folder
lookup by name, folder creation (None on failure, as create_folder catches
its exception), slash-path resolution (None when a segment fails), the
clone task outcome and the post-clone lookup. -/
structure CloneCtx where
  findVm : String → Option VmObj
  findFolder : String → Option VFolder
  createFolder : String → Option VFolder
  ensurePath : String → Option VFolder
  cloneTaskOk : Bool
  postLookup : String → Option VmObj

/-- VSphereManager.clone_vm (lines 174-247). The result carries the folder
the clone was placed in together with the VM returned by the post-clone
lookup. An absent or empty folder_name, and a simple folder name whose
lookup and creation both fail, leave the destination at the source VM's
parent folder. -/
def clone_vm (ctx : CloneCtx) (source_vm_name new_vm_name : String)
    (folder_name : Option String) : Except CloneErr (VFolder × VmObj) :=
  match ctx.findVm source_vm_name with
  | none => Except.error CloneErr.sourceNotFound
  | some sv =>
    if sv.datastores.isEmpty then Except.error CloneErr.noDatastore
    else
      let destRes : Except CloneErr VFolder :=
        match folder_name with
        | none => Except.ok sv.parent
        | some f =>
          if f = "" then Except.ok sv.parent
          else if f.toList.contains '/' then
            match ctx.ensurePath f with
            | some fl => Except.ok fl
            | none => Except.error CloneErr.folderPathError
          else
            match ctx.findFolder f with
            | some fc => Except.ok fc
            | none =>
              match ctx.createFolder f with
              | some fc => Except.ok fc
              | none => Except.ok sv.parent
      match destRes with
      | Except.error e => Except.error e
      | Except.ok dest =>
        if ctx.cloneTaskOk then
          match ctx.postLookup new_vm_name with
          | some vm => Except.ok (dest, vm)
          | none => Except.error CloneErr.cloneNotFoundAfter
        else Except.error CloneErr.cloneTaskFailed

/-- A concrete environment for evaluating clone_vm: one source VM "src"
with parent folder "Parent" and one datastore, no folders resolvable or
creatable, clone task succeeding, clone visible afterwards as "dst". -/
def clone_ctx0 : CloneCtx where
  findVm := fun n =>
    if n = "src" then some ⟨"src", ⟨"Parent"⟩, ["ds1"]⟩
    else if n = "dst" then some ⟨"dst", ⟨"Parent"⟩, ["ds1"]⟩
    else none
  findFolder := fun _ => none
  createFolder := fun _ => none
  ensurePath := fun _ => none
  cloneTaskOk := true
  postLookup := fun n => if n = "dst" then some ⟨"dst", ⟨"Parent"⟩, ["ds1"]⟩ else none

/- ===================== CloneWorker (builder.py) ========================= -/

/-- Observable events of one CloneWorker run: the vSphere lifecycle calls,
the guest-phase attempts, VM restarts, and the WorkerResult posts to the
result queue. -/
inductive Ev where
  | clone
  | powerOn
  | waitReady
  | blissTry (attempt : ℕ)
  | gameTry (attempt : ℕ)
  | nsxAlive
  | restart
  | markReady
  | powerOff
  | markFault
  | putOk
  | putErr
deriving DecidableEq

/-- An operation under retry: it extends the trace and reports success. -/
def vs_op (e : Ev) (op_ok : Bool) (tr : List Ev) : List Ev × Bool :=
  (tr ++ [e], op_ok)

/-- retry_sync (builder.py lines 25-34): attempts 1..retries; a failing
attempt re-runs after backoff, and the failure of attempt number retries
propagates. With retries = 0 the loop body never runs and the function
returns None without raising. -/
def retry_sync : ℕ → (List Ev → List Ev × Bool) → List Ev → List Ev × Bool
  | 0, _, tr => (tr, true)
  | 1, op, tr => op tr
  | n + 2, op, tr =>
    match op tr with
    | (tr2, true) => (tr2, true)
    | (tr2, false) => retry_sync (n + 1) op tr2

/-- Outcome of one BlisInitSetup.run attempt: success, a TimeoutError (APK
install timeout), or any other exception. -/
inductive GuestOutcome where
  | ok
  | timeoutErr
  | otherErr
deriving DecidableEq

/-- How _bliss_init ends: returning the IP, returning None (the loop ran
out without raising), or raising. -/
inductive BlissRes where
  | retIp
  | retNone
  | raised
deriving DecidableEq

/-- The retry loop of CloneWorker._bliss_init (builder.py lines 64-84).
Arguments: the per-attempt outcome, whether restart_vm plus
wait_for_vm_ready succeed, attempts remaining, current attempt number.
Success returns the IP; TimeoutError continues WITHOUT restart; any other
exception raises on attempt 3 and otherwise restarts the VM (after
ensure_nsx_alive) and re-waits the IP; a loop that runs out falls through
to an implicit return None. -/
def bliss_init_loop (out : ℕ → GuestOutcome) (restart_ok : Bool) :
    ℕ → ℕ → List Ev × BlissRes
  | 0, _ => ([], BlissRes.retNone)
  | r + 1, a =>
    match out a with
    | GuestOutcome.ok => ([Ev.blissTry a], BlissRes.retIp)
    | GuestOutcome.timeoutErr =>
      let (tr, res) := bliss_init_loop out restart_ok r (a + 1)
      (Ev.blissTry a :: tr, res)
    | GuestOutcome.otherErr =>
      if a = 3 then ([Ev.blissTry a], BlissRes.raised)
      else if restart_ok then
        let (tr, res) := bliss_init_loop out restart_ok r (a + 1)
        (Ev.blissTry a :: Ev.nsxAlive :: Ev.restart :: tr, res)
      else ([Ev.blissTry a, Ev.nsxAlive, Ev.restart], BlissRes.raised)

/-- CloneWorker._bliss_init: for attempt in range(1, 4). -/
def bliss_init (out : ℕ → GuestOutcome) (restart_ok : Bool) : List Ev × BlissRes :=
  bliss_init_loop out restart_ok 3 1

/-- The retry loop of CloneWorker._game_init (builder.py lines 86-99):
success returns; any exception raises on attempt 3 and otherwise restarts
the VM and re-waits the IP. The Bool result is true when no exception
escapes. -/
def game_init_loop (out : ℕ → Bool) (restart_ok : Bool) :
    ℕ → ℕ → List Ev × Bool
  | 0, _ => ([], true)
  | r + 1, a =>
    if out a then ([Ev.gameTry a], true)
    else if a = 3 then ([Ev.gameTry a], false)
    else if restart_ok then
      let (tr, res) := game_init_loop out restart_ok r (a + 1)
      (Ev.gameTry a :: Ev.restart :: tr, res)
    else ([Ev.gameTry a, Ev.restart], false)

/-- CloneWorker._game_init: for attempt in range(1, 4). -/
def game_init (out : ℕ → Bool) (restart_ok : Bool) : List Ev × Bool :=
  game_init_loop out restart_ok 3 1

/-- Outcomes of the external calls one CloneWorker run performs. Each
vSphere operation is deterministic in this model (the same call gives the
same outcome on every retry). -/
structure WEnv where
  retries : ℕ
  clone_ok : Bool
  power_on_ok : Bool
  wait_ok : Bool
  bliss_out : ℕ → GuestOutcome
  bliss_restart_ok : Bool
  game_out : ℕ → Bool
  game_restart_ok : Bool
  mark_ready_ok : Bool
  power_off_ok : Bool
  cleanup_session_ok : Bool
  cleanup_power_off_ok : Bool

/-- CloneWorker.prepare_vm (builder.py lines 103-139) as a trace
transformer. Returns (trace, completed-without-raise, clone assigned
self.vm). The success tail mirrors the source exactly: mark_ready (line
130), power_off_vm (line 131), result_q.put ok (line 133), then the
retried power_off_vm and mark_ready (lines 135-136), then a second
result_q.put ok (line 139). -/
def prepare_vm (env : WEnv) : List Ev × Bool × Bool :=
  match retry_sync env.retries (vs_op Ev.clone env.clone_ok) [] with
  | (tr, false) => (tr, false, false)
  | (tr1, true) =>
    match retry_sync env.retries (vs_op Ev.powerOn env.power_on_ok) tr1 with
    | (tr, false) => (tr, false, true)
    | (tr2, true) =>
      match retry_sync env.retries (vs_op Ev.waitReady env.wait_ok) tr2 with
      | (tr, false) => (tr, false, true)
      | (tr3, true) =>
        match bliss_init env.bliss_out env.bliss_restart_ok with
        | (btr, BlissRes.raised) => (tr3 ++ btr, false, true)
        | (btr, _) =>
          match game_init env.game_out env.game_restart_ok with
          | (gtr, false) => (tr3 ++ btr ++ gtr, false, true)
          | (gtr, true) =>
            match vs_op Ev.markReady env.mark_ready_ok (tr3 ++ btr ++ gtr) with
            | (tr, false) => (tr, false, true)
            | (tr6, true) =>
              match vs_op Ev.powerOff env.power_off_ok tr6 with
              | (tr, false) => (tr, false, true)
              | (tr7, true) =>
                match retry_sync env.retries (vs_op Ev.powerOff env.power_off_ok)
                    (tr7 ++ [Ev.putOk]) with
                | (tr, false) => (tr, false, true)
                | (tr9, true) =>
                  match retry_sync env.retries (vs_op Ev.markReady env.mark_ready_ok) tr9 with
                  | (tr, false) => (tr, false, true)
                  | (tr10, true) => (tr10 ++ [Ev.putOk], true, true)

/-- CloneWorker._cleanup_on_error (builder.py lines 141-159): inside a
fresh session (whose failure is swallowed), when self.vm was assigned,
best-effort retried power_off (errors swallowed) then mark_fault (errors
swallowed); finally always one err result post. -/
def cleanup_on_error (env : WEnv) (vm_assigned : Bool) (tr : List Ev) : List Ev :=
  let tr1 :=
    if env.cleanup_session_ok then
      if vm_assigned then
        (retry_sync env.retries (vs_op Ev.powerOff env.cleanup_power_off_ok) tr).1
          ++ [Ev.markFault]
      else tr
    else tr
  tr1 ++ [Ev.putErr]

/-- CloneWorker.run (builder.py lines 163-171): prepare_vm, with
_cleanup_on_error on any exception. -/
def clone_worker_run (env : WEnv) : List Ev :=
  match prepare_vm env with
  | (tr, true, _) => tr
  | (tr, false, vmA) => cleanup_on_error env vmA tr

/-- The environment in which every external call succeeds: the success
path of the worker. -/
def all_ok_env : WEnv where
  retries := 3
  clone_ok := true
  power_on_ok := true
  wait_ok := true
  bliss_out := fun _ => GuestOutcome.ok
  bliss_restart_ok := true
  game_out := fun _ => true
  game_restart_ok := true
  mark_ready_ok := true
  power_off_ok := true
  cleanup_session_ok := true
  cleanup_power_off_ok := true

/-- Number of ok result posts in a worker trace. -/
def put_ok_count (evs : List Ev) : ℕ :=
  evs.countP (fun e => decide (e = Ev.putOk))

/-- Number of err result posts in a worker trace. -/
def put_err_count (evs : List Ev) : ℕ :=
  evs.countP (fun e => decide (e = Ev.putErr))

/- ======================= Theorems: helper lemmas ======================== -/

theorem pending_apply_nonneg (c : ℤ) (op : PendingOp) (h : 0 ≤ c) :
    0 ≤ pending_apply c op := by
  cases op <;> simp [pending_apply] <;> omega

theorem pending_foldl_nonneg (ops : List PendingOp) :
    ∀ c : ℤ, 0 ≤ c → 0 ≤ ops.foldl pending_apply c := by
  induction ops with
  | nil => intro c h; simpa using h
  | cons op rest ih =>
    intro c h
    exact ih (pending_apply c op) (pending_apply_nonneg c op h)

theorem put_count_enqueue_loop (k : ℕ) : ∀ i : ℕ, put_count (enqueue_loop k i) = k := by
  induction k with
  | zero => intro i; rfl
  | succ k ih =>
    intro i
    simp [enqueue_loop, put_count, List.countP_cons]
    have h := ih (i + 1)
    simp [put_count] at h
    omega

theorem enqueue_loop_get (k : ℕ) : ∀ i j : ℕ, j < k →
    (enqueue_loop k i).get? (2 * j) = some (TickEv.put (i + j)) ∧
    (enqueue_loop k i).get? (2 * j + 1) = some (TickEv.inc (i + j)) := by
  induction k with
  | zero => intro i j hj; exact absurd hj (Nat.not_lt_zero j)
  | succ k ih =>
    intro i j hj
    cases j with
    | zero => simp [enqueue_loop]
    | succ j =>
      have hj2 : j < k := by omega
      have h := ih (i + 1) j hj2
      have e1 : 2 * (j + 1) = 2 * j + 1 + 1 := by ring
      have e2 : i + (j + 1) = i + 1 + j := by omega
      rw [e1, e2]
      simpa [enqueue_loop] using h

/- ======================= Claim C7 ======================================= -/

/-- C7: the PendingCounter count is non-negative in every reachable state:
each operation preserves non-negativity, every operation sequence started
from 0 ends non-negative, dec on a zero counter leaves 0, and reset_to of
a negative value stores 0. -/
theorem pending_counter_nonneg :
    (∀ (c : ℤ) (op : PendingOp), 0 ≤ c → 0 ≤ pending_apply c op) ∧
    (∀ ops : List PendingOp, 0 ≤ pending_run ops) ∧
    pending_apply 0 PendingOp.dec = 0 ∧
    (∀ (c v : ℤ), v < 0 → pending_apply c (PendingOp.reset_to v) = 0) := by
  refine ⟨pending_apply_nonneg, ?_, by simp [pending_apply], ?_⟩
  · intro ops
    exact pending_foldl_nonneg ops 0 le_rfl
  · intro c v hv
    simp [pending_apply]
    omega

/-- Witness for C7 at concrete inputs. -/
theorem pending_counter_nonneg_witness :
    0 ≤ pending_apply 5 PendingOp.inc ∧
    0 ≤ pending_run [PendingOp.inc, PendingOp.dec, PendingOp.dec] ∧
    pending_apply 0 PendingOp.dec = 0 ∧
    ((-3 : ℤ) < 0 ∧ pending_apply 7 (PendingOp.reset_to (-3)) = 0) :=
  ⟨pending_counter_nonneg.1 5 PendingOp.inc (by decide),
   pending_counter_nonneg.2.1 [PendingOp.inc, PendingOp.dec, PendingOp.dec],
   pending_counter_nonneg.2.2.1,
   by decide, pending_counter_nonneg.2.2.2 7 (-3) (by decide)⟩

/- ======================= Claim C2 ======================================= -/

/-- C2: a reconciler tick with observed counts ready and pending enqueues
exactly min(batch_size, max_ready_vm - (ready + pending)) CloneTasks when
ready + pending < min_ready_vm and none otherwise; and whenever
ready + pending was at most max_ready_vm when the counts were read, it is
still at most max_ready_vm right after the enqueue decision. -/
theorem replenisher_tick_enqueue_spec (m M b r p : ℕ) :
    put_count (tick_events (m : ℤ) (M : ℤ) (b : ℤ) (r : ℤ) (p : ℤ)) =
      (if r + p < m then min b (M - (r + p)) else 0) ∧
    (r + p ≤ M →
      r + p + put_count (tick_events (m : ℤ) (M : ℤ) (b : ℤ) (r : ℤ) (p : ℤ)) ≤ M) := by
  have h1 : put_count (tick_events (m : ℤ) (M : ℤ) (b : ℤ) (r : ℤ) (p : ℤ)) =
      tick_enqueue_count (m : ℤ) (M : ℤ) (b : ℤ) (r : ℤ) (p : ℤ) :=
    put_count_enqueue_loop _ 0
  constructor
  · rw [h1]
    simp only [tick_enqueue_count, tick_need]
    split_ifs with h2 h3 h3 <;> push_cast at h2 ⊢ <;> omega
  · intro hle
    rw [h1]
    simp only [tick_enqueue_count, tick_need]
    split_ifs with h2 <;> push_cast at h2 ⊢ <;> omega

/-- Witness for C2 at the boundary input of the spec's scenario B1:
min_ready_vm = 4, max_ready_vm = 5, batch_size = 9, ready = 3, pending = 0,
where the upper bound truncates the batch to 2 enqueues. -/
theorem replenisher_tick_enqueue_spec_witness :
    put_count (tick_events 4 5 9 3 0) = min 9 (5 - 3) ∧
    (3 + 0 ≤ 5 ∧ 3 + 0 + put_count (tick_events 4 5 9 3 0) ≤ 5) := by
  have h := replenisher_tick_enqueue_spec 4 5 9 3 0
  refine ⟨?_, by decide, h.2 (by decide)⟩
  have h1 := h.1
  simpa using h1

/- ======================= Claim C4 ======================================= -/

/-- C4 counterexample: at the concrete tick with min_ready_vm = 2,
max_ready_vm = 4, batch_size = 3, ready = 0, pending = 0 the code performs
CLONE_QUEUE.put before the matching pending.inc (replenisher.py lines
57-59), so the claimed ordering "pending.inc() happens before the
corresponding CLONE_QUEUE.put() completes" is false. -/
theorem replenisher_inc_before_put_counterexample :
    inc_before_putB (tick_events 2 4 3 0 0) = false := by decide

/-- C4 amended: in every reconciler tick that enqueues work, each enqueued
CloneTask's CLONE_QUEUE.put completes before the corresponding
pending.inc: in the tick's event trace the j-th put is immediately
followed by the j-th inc, so an observer computing ready + pending after
the inc sees the incremented pending value, while one between the put and
the inc does not. -/
theorem replenisher_put_then_inc (m M b r p : ℤ) (j : ℕ)
    (hj : j < tick_enqueue_count m M b r p) :
    ∃ k, (tick_events m M b r p).get? k = some (TickEv.put j) ∧
      (tick_events m M b r p).get? (k + 1) = some (TickEv.inc j) := by
  obtain ⟨h1, h2⟩ := enqueue_loop_get (tick_enqueue_count m M b r p) 0 j hj
  refine ⟨2 * j, ?_, ?_⟩
  · simpa [tick_events] using h1
  · simpa [tick_events] using h2

/-- Witness for the amended C4 at a concrete tick. -/
theorem replenisher_put_then_inc_witness :
    0 < tick_enqueue_count 2 4 3 0 0 ∧
    ∃ k, (tick_events 2 4 3 0 0).get? k = some (TickEv.put 0) ∧
      (tick_events 2 4 3 0 0).get? (k + 1) = some (TickEv.inc 0) :=
  ⟨by decide, replenisher_put_then_inc 2 4 3 0 0 0 (by decide)⟩

/- ======================= Claim C6 ======================================= -/

theorem list_init_vms_loop_eq_filter (marker : String) (cutoff : ℤ)
    (vms : List PoolVM) :
    list_init_vms_loop marker cutoff vms =
      (vms.filter (init_vm_old marker cutoff)).map PoolVM.name := by
  induction vms with
  | nil => rfl
  | cons vm rest ih =>
    simp only [list_init_vms_loop, List.filter_cons]
    cases h1 : name_starts vm.name marker with
    | false => simp [init_vm_old, h1, ih]
    | true =>
      cases h2 : vm_created vm with
      | none => simp [init_vm_old, h1, h2, ih]
      | some c =>
        by_cases h3 : c ≤ cutoff
        · simp [init_vm_old, h1, h2, h3, ih]
        · simp [init_vm_old, h1, h2, h3, ih]

/-- C6: for every inventory and integer TTL, list_init_vms returns [] when
older_than_minutes is non-positive; otherwise it returns exactly the names
of VMs whose name starts with the init marker and whose createDate
(falling back to bootTime) lies at least older_than_minutes minutes before
now; and a VM with neither timestamp never satisfies the selection
predicate. -/
theorem list_init_vms_spec (env : String) (now t : ℤ) (vms : List PoolVM) :
    (t ≤ 0 → list_init_vms env now vms t = []) ∧
    (0 < t → list_init_vms env now vms t =
      (vms.filter (fun vm =>
        name_starts vm.name (init_name_marker env) &&
          (match vm_created vm with
           | some c => decide (t ≤ now - c)
           | none => false))).map PoolVM.name) ∧
    (∀ (marker : String) (cutoff : ℤ) (vm : PoolVM),
      vm_created vm = none → init_vm_old marker cutoff vm = false) := by
  refine ⟨?_, ?_, ?_⟩
  · intro ht
    simp [list_init_vms, ht]
  · intro ht
    rw [list_init_vms, if_neg (by omega), list_init_vms_loop_eq_filter]
    have hpt : ∀ vm ∈ vms,
        init_vm_old (init_name_marker env) (now - t) vm =
          (name_starts vm.name (init_name_marker env) &&
            (match vm_created vm with
             | some c => decide (t ≤ now - c)
             | none => false)) := by
      intro vm _
      unfold init_vm_old
      cases h : vm_created vm with
      | none => rfl
      | some c =>
        have : decide (c ≤ now - t) = decide (t ≤ now - c) := by
          rw [decide_eq_decide]; omega
        simp [this]
    rw [List.filter_congr hpt]
  · intro marker cutoff vm h
    simp [init_vm_old, h]

/-- Witness for C6: a zero TTL returns [] on a non-trivial inventory, and
a positive TTL selects the old init-VM while dropping the timestamp-less
one and the ready-named one. -/
theorem list_init_vms_spec_witness :
    ((0 : ℤ) ≤ 0 ∧
      list_init_vms "Dev" 100
        [⟨"[Dev] VMInit_0a1b2c3d", some 10, none⟩] 0 = []) ∧
    ((0 : ℤ) < 30 ∧
      list_init_vms "Dev" 100
        [⟨"[Dev] VMInit_0a1b2c3d", some 10, none⟩,
         ⟨"[Dev] VMInit_ffffffff", none, none⟩,
         ⟨"[Dev] VM2login_99999999", some 10, none⟩] 30 =
        ["[Dev] VMInit_0a1b2c3d"]) := by
  constructor
  · exact ⟨by decide,
      (list_init_vms_spec "Dev" 100 0 [⟨"[Dev] VMInit_0a1b2c3d", some 10, none⟩]).1
        (by decide)⟩
  · refine ⟨by decide, ?_⟩
    rw [(list_init_vms_spec "Dev" 100 30
      [⟨"[Dev] VMInit_0a1b2c3d", some 10, none⟩,
       ⟨"[Dev] VMInit_ffffffff", none, none⟩,
       ⟨"[Dev] VM2login_99999999", some 10, none⟩]).2.1 (by decide)]
    decide

/- ======================= Claim C8 ======================================= -/

theorem dict_get_append (m1 m2 : List (String × String)) (q : String) :
    dict_get (m1 ++ m2) q =
      match dict_get m1 q with
      | some v => some v
      | none => dict_get m2 q := by
  induction m1 with
  | nil => rfl
  | cons p ps ih =>
    simp only [List.cons_append, dict_get]
    split <;> simp [ih]

theorem dict_get_none_of_any_false (m : List (String × String)) (k : String)
    (h : m.any (fun p => p.1 = k) = false) : dict_get m k = none := by
  induction m with
  | nil => rfl
  | cons p ps ih =>
    simp only [List.any_cons, Bool.or_eq_false_iff, decide_eq_false_iff_not] at h
    simp [dict_get, h.1, ih h.2]

theorem dict_get_map_self (m : List (String × String)) (k v : String)
    (h : m.any (fun p => p.1 = k) = true) :
    dict_get (m.map (fun p => if p.1 = k then (k, v) else p)) k = some v := by
  induction m with
  | nil => simp at h
  | cons p ps ih =>
    by_cases hp : p.1 = k
    · simp [dict_get, hp]
    · simp only [List.any_cons, Bool.or_eq_true, decide_eq_true_eq] at h
      rcases h with h | h
      · exact absurd h hp
      · simp [dict_get, hp, ih h]

theorem dict_get_map_other (m : List (String × String)) (k v q : String)
    (hq : q ≠ k) :
    dict_get (m.map (fun p => if p.1 = k then (k, v) else p)) q = dict_get m q := by
  induction m with
  | nil => rfl
  | cons p ps ih =>
    by_cases hp : p.1 = k
    · have hk : ¬ (k = q) := fun hkq => hq hkq.symm
      have hpq : ¬ (p.1 = q) := by rw [hp]; exact hk
      simp [dict_get, hp, hk, hpq, ih]
    · simp [dict_get, hp, ih]

theorem dict_get_insert (m : List (String × String)) (k v q : String) :
    dict_get (dict_insert m k v) q = if q = k then some v else dict_get m q := by
  unfold dict_insert
  cases h : m.any (fun p => p.1 = k) with
  | false =>
    rw [if_neg (by simp [h]), dict_get_append]
    by_cases hq : q = k
    · subst hq
      rw [dict_get_none_of_any_false m q h]
      simp [dict_get]
    · have hk : ¬ (k = q) := fun hkq => hq hkq.symm
      simp only [dict_get, hk, if_neg, if_false]
      cases hm : dict_get m q <;> simp [hq, hk, hm]
  | true =>
    rw [if_pos (by simp [h])]
    by_cases hq : q = k
    · subst hq
      rw [dict_get_map_self m q v h]
      simp
    · rw [dict_get_map_other m k v q hq, if_neg hq]

theorem foldl_dict_insert_get (es : List (String × String)) :
    ∀ (m : List (String × String)) (k : String),
      dict_get (es.foldl (fun m e => dict_insert m e.1 e.2) m) k =
        match last_match es k with
        | some v => some v
        | none => dict_get m k := by
  induction es with
  | nil => intro m k; rfl
  | cons e es ih =>
    intro m k
    simp only [List.foldl_cons, last_match]
    rw [ih]
    cases hl : last_match es k with
    | some v => rfl
    | none =>
      rw [dict_get_insert]
      by_cases hk : e.1 = k
      · simp [hk, if_pos]
      · have hk2 : ¬ (k = e.1) := fun h => hk h.symm
        simp [hk, hk2]

theorem parse_arp_table_eq_foldl (lines : List String) :
    ∀ m : List (String × String),
      lines.foldl
        (fun m line =>
          match parse_arp_line line with
          | some kv => dict_insert m kv.1 kv.2
          | none => m) m =
      (lines.filterMap parse_arp_line).foldl (fun m e => dict_insert m e.1 e.2) m := by
  induction lines with
  | nil => intro m; rfl
  | cons l ls ih =>
    intro m
    simp only [List.foldl_cons, List.filterMap_cons]
    cases h : parse_arp_line l with
    | none => simp [h, ih]
    | some kv => simp [h, ih]

/-- C8 amended: for every ARP-table output (given as its list of lines) the
returned map, queried at any key, holds exactly the entries produced by the
lines having at least four whitespace-separated fields whose second field
has a prefix matching the IPv4 pattern and whose third field's first 17
characters all lie in [0-9A-Fa-f:]; the value for a key is the IP of the
LAST such line whose lowercased third field equals the key, and keys with
no such line are absent. -/
theorem parse_arp_table_lookup (lines : List String) (k : String) :
    dict_get (parse_arp_table lines) k =
      last_match (lines.filterMap parse_arp_line) k := by
  unfold parse_arp_table
  rw [parse_arp_table_eq_foldl, foldl_dict_insert_get]
  cases h : last_match (lines.filterMap parse_arp_line) k <;> simp [dict_get]

/-- C8 counterexample: the line "e 1.2.3.4 00000000000000000 x" has a third
field of 17 hexadecimal characters with no colon, hence NOT the canonical
17-character colon MAC form, yet parse_arp_table maps it to the IP; so the
claim that only canonical colon-form MACs contribute entries is false. -/
theorem parse_arp_table_mac_counterexample :
    dict_get (parse_arp_table ["e 1.2.3.4 00000000000000000 x"])
        "00000000000000000" = some "1.2.3.4" ∧
    canonical_mac ("00000000000000000".toList) = false := by
  constructor
  · rfl
  · rfl

/- ======================= Claim C9 ======================================= -/

/-- C9: power_on_vm, power_off_vm and suspend_vm are idempotent with
respect to their target power state: on a VM already poweredOn (resp.
poweredOff, suspended) the call starts no power task, raises no error and
leaves the power state unchanged, whatever a power task would have done. -/
theorem power_ops_idempotent (task_ok : Bool) :
    power_on_vm task_ok VMPower.poweredOn = ⟨[], VMPower.poweredOn, false⟩ ∧
    power_off_vm task_ok VMPower.poweredOff = ⟨[], VMPower.poweredOff, false⟩ ∧
    suspend_vm task_ok VMPower.suspended = ⟨[], VMPower.suspended, false⟩ :=
  ⟨rfl, rfl, rfl⟩

/- ======================= Claim C10 ====================================== -/

/-- C10: when folder_name is a non-empty slash-free name that matches no
existing folder and whose creation fails, clone_vm behaves exactly as with
folder_name = None, and on success the clone is placed in the source VM's
parent folder. -/
theorem clone_vm_folder_fallback (ctx : CloneCtx) (s d f : String)
    (hne : f ≠ "") (hslash : f.toList.contains '/' = false)
    (hfind : ctx.findFolder f = none) (hcreate : ctx.createFolder f = none) :
    clone_vm ctx s d (some f) = clone_vm ctx s d none ∧
    (∀ (sv : VmObj) (fol : VFolder) (vm : VmObj), ctx.findVm s = some sv →
      clone_vm ctx s d (some f) = Except.ok (fol, vm) → fol = sv.parent) := by
  have hmain : clone_vm ctx s d (some f) = clone_vm ctx s d none := by
    unfold clone_vm
    cases hv : ctx.findVm s with
    | none => rfl
    | some sv =>
      have hmem : ¬ ('/' ∈ f.toList) := by simpa using hslash
      have hmem2 : ¬ ('/' ∈ f.data) := hmem
      simp [hne, hmem2, hfind, hcreate]
  refine ⟨hmain, ?_⟩
  intro sv fol vm hv hok
  rw [hmain] at hok
  unfold clone_vm at hok
  rw [hv] at hok
  by_cases hds : sv.datastores.isEmpty
  · simp [hds] at hok
  · simp only [hds, if_false, Bool.false_eq_true] at hok
    cases hctk : ctx.cloneTaskOk with
    | false => simp [hctk] at hok
    | true =>
      cases hpl : ctx.postLookup d with
      | none => simp [hctk, hpl] at hok
      | some vm2 =>
        simp [hctk, hpl] at hok
        exact hok.1.symm

/-- Witness for C10: in the concrete environment clone_ctx0 the folder
name "LoginVMs" is non-empty, slash-free, unresolvable and uncreatable,
and clone_vm with it equals clone_vm with no folder name, landing the
clone in the parent folder of the source VM. -/
theorem clone_vm_folder_fallback_witness :
    ("LoginVMs" ≠ "" ∧ "LoginVMs".toList.contains '/' = false ∧
      clone_ctx0.findFolder "LoginVMs" = none ∧
      clone_ctx0.createFolder "LoginVMs" = none) ∧
    clone_vm clone_ctx0 "src" "dst" (some "LoginVMs") =
      clone_vm clone_ctx0 "src" "dst" none :=
  ⟨⟨by decide, by decide, rfl, rfl⟩,
   (clone_vm_folder_fallback clone_ctx0 "src" "dst" "LoginVMs"
     (by decide) (by decide) rfl rfl).1⟩

/- ======================= Claim C1 ======================================= -/

/-- C1 failing input: in the environment where every external call
succeeds, one CloneWorker run posts TWO ok WorkerResults to its result
queue (builder.py lines 133 and 139) and no err result, instead of the
exactly one post per run that the claim states. -/
theorem clone_worker_double_ok_post :
    clone_worker_run all_ok_env =
      [Ev.clone, Ev.powerOn, Ev.waitReady, Ev.blissTry 1, Ev.gameTry 1,
       Ev.markReady, Ev.powerOff, Ev.putOk, Ev.powerOff, Ev.markReady, Ev.putOk] ∧
    put_ok_count (clone_worker_run all_ok_env) = 2 ∧
    put_err_count (clone_worker_run all_ok_env) = 0 := by
  refine ⟨rfl, ?_, ?_⟩ <;> decide

/- ======================= Claim C3 ======================================= -/

/-- C3 failing input: on the success path the worker's first mark_ready
call (builder.py line 130) precedes its first power_off_vm call (line
131), so the claimed order in which the first power_off_vm precedes the
first mark_ready is violated; clone, power_on and wait_for_vm_ready do
occur first and in the claimed order. -/
theorem clone_worker_mark_ready_before_power_off :
    Ev.markReady ∈ clone_worker_run all_ok_env ∧
    Ev.powerOff ∈ clone_worker_run all_ok_env ∧
    firstIdx Ev.markReady (clone_worker_run all_ok_env) <
      firstIdx Ev.powerOff (clone_worker_run all_ok_env) ∧
    firstIdx Ev.clone (clone_worker_run all_ok_env) <
      firstIdx Ev.powerOn (clone_worker_run all_ok_env) ∧
    firstIdx Ev.powerOn (clone_worker_run all_ok_env) <
      firstIdx Ev.waitReady (clone_worker_run all_ok_env) ∧
    firstIdx Ev.waitReady (clone_worker_run all_ok_env) <
      firstIdx Ev.markReady (clone_worker_run all_ok_env) := by
  refine ⟨?_, ?_, ?_, ?_, ?_, ?_⟩ <;> decide

/- ======================= Claim C5 ======================================= -/

/-- C5 failing input: when all three BlisInitSetup attempts fail with an
install TimeoutError, _bliss_init performs exactly 3 attempts with no VM
restart between them, then falls off its retry loop and RETURNS None
instead of raising, so the worker does not transition to CLEANUP from this
phase. -/
theorem bliss_init_all_timeouts_no_raise :
    bliss_init (fun _ => GuestOutcome.timeoutErr) true =
      ([Ev.blissTry 1, Ev.blissTry 2, Ev.blissTry 3], BlissRes.retNone) := rfl
